import Mathlib

/-!
Shallow embedding of the product retrieval-and-formatting pipelines of this
repository (src/examples/filters/).  Strings are Lean `String`s; character
level processing works on the underlying `List Char`.  HTTP traffic is
abstracted by oracles passed in as function arguments; a fetch step of type
`Int → Except String (Option RawRecord)` returns `.error msg` when the step
raises an unexpected exception, `.ok none` when the per-product fetch absorbed
a failure and returned Python `None`, and `.ok (some r)` on success.
-/

namespace Core

/-- Raw record as received from the remote API, before pydantic validation:
each of the three expected fields may be missing. -/
structure RawRecord where
  content : Option String
  description : Option String
  image_url : Option String
deriving DecidableEq

/-- The pydantic `Product` model: `content`, `description`, `image_url` with
`image_url` a syntactically valid HTTP URL. -/
structure Product where
  content : String
  description : String
  image_url : String
deriving DecidableEq

/-- The pydantic `StructuredProduct` model: `name`, `description`, `image`. -/
structure StructuredProduct where
  name : String
  description : String
  image : String
deriving DecidableEq

/-- Whether the pattern list is an initial segment of the second list. -/
def starts_with : List Char → List Char → Bool
  | [], _ => true
  | _ :: _, [] => false
  | p :: ps, c :: cs => p = c && starts_with ps cs

/-- Models pydantic `HttpUrl` syntactic validation: an `http` or `https`
scheme followed by a non-empty remainder (host part). -/
def is_http_url (u : String) : Bool :=
  (starts_with "http://".data u.data && decide (7 < u.data.length)) ||
  (starts_with "https://".data u.data && decide (8 < u.data.length))

/-- Models `Product(**raw)`: pydantic raises `ValidationError` when a required
field is missing or `image_url` is not a valid URL; here that is `none`. -/
def validate_product (r : RawRecord) : Option Product :=
  match r.content, r.description, r.image_url with
  | some c, some d, some u => if is_http_url u then some ⟨c, d, u⟩ else none
  | _, _, _ => none

/-- The whitespace class used by the Python regex escape for whitespace and by
`str.strip()`, restricted to its ASCII fragment. -/
def isPySpace (c : Char) : Bool :=
  c = ' ' || c = '\t' || c = '\n' || c = '\r' || c = '\x0b' || c = '\x0c'

/-- Remove trailing whitespace. -/
def dropTrailing (l : List Char) : List Char :=
  (l.reverse.dropWhile isPySpace).reverse

/-- Python `str.strip()` on the character list. -/
def pyStripL (l : List Char) : List Char :=
  dropTrailing (l.dropWhile isPySpace)

/-- Python `str.strip()`. -/
def pyStrip (s : String) : String := ⟨pyStripL s.data⟩

/-- The text captured by group 1 of the pattern `:\s*(.+)` once the match is
anchored just after a colon, for the text `t` following that colon.  The
whitespace star is greedy: it first consumes the maximal whitespace run; if a
character remains, the dot-plus group captures greedily up to the next newline
(the dot does not match newlines).  If the whole tail is whitespace the engine
backtracks, and the group ends up holding exactly the last character of `t`
that is not a newline. -/
def regex_group (t : List Char) : List Char :=
  let q := t.dropWhile isPySpace
  if q.isEmpty then
    match t.reverse.find? (fun c => c ≠ '\n') with
    | some c => [c]
    | none => []
  else q.takeWhile (fun c => c ≠ '\n')

/-- Models `re.search` with the pattern `:\s*(.+)`: scan for the leftmost
colon at which the rest of the pattern can match — which happens exactly when
some character other than a newline occurs after the colon — and return the
captured group there. -/
def regex_search_colon : List Char → Option (List Char)
  | [] => none
  | c :: rest =>
    if c = ':' && rest.any (fun d => d ≠ '\n') then some (regex_group rest)
    else regex_search_colon rest

/-- Name extraction in `structure_product_data`:
`name_match.group(1).strip()` when the regex matches, else the placeholder. -/
def extract_name (s : String) : String :=
  match regex_search_colon s.data with
  | some g => pyStrip ⟨g⟩
  | none => "Unknown Product"

/-- `structure_product_data` (identical in the conversational-assistant,
data-pipeline and function-calling variants): name from the description via
the regex, description `content + " - " + description`, image copied. -/
def structure_product_data (p : Product) : StructuredProduct :=
  { name := extract_name p.description
  , description := p.content ++ " - " ++ p.description
  , image := p.image_url }

/-- The inner validation loop of `get_product_data`: validate each raw record,
structure it, and on `ValidationError` log and `continue` with the rest. -/
def validate_loop : List RawRecord → List StructuredProduct
  | [] => []
  | r :: rest =>
    match validate_product r with
    | some p => structure_product_data p :: validate_loop rest
    | none => validate_loop rest

/-- Outcome of one HTTP request: either a transport-level failure (connection
error and the like) or a response with a status code and, when the body was
valid JSON of the expected shape, the decoded record. -/
inductive HttpOutcome where
  | transport (msg : String)
  | response (status : Nat) (json : Option RawRecord)

/-- The sequential fetch loop of the conversational-assistant and
data-pipeline `get_product_data`: fetch each identifier in order, keep the
non-absent results.  Also returns the list of identifiers for which a fetch
was attempted.  An `.error` from a step models an unexpected exception, which
aborts the loop and propagates to the enclosing handler. -/
def fetch_loop (step : Int → Except String (Option RawRecord)) :
    List Int → Except String (List RawRecord) × List Int
  | [] => (Except.ok [], [])
  | pid :: rest =>
    match step pid with
    | Except.error e => (Except.error e, [pid])
    | Except.ok none =>
      ((fetch_loop step rest).1, pid :: (fetch_loop step rest).2)
    | Except.ok (some r) =>
      (match (fetch_loop step rest).1 with
       | Except.error e => Except.error e
       | Except.ok l => Except.ok (r :: l),
       pid :: (fetch_loop step rest).2)

/-- `asyncio.gather` over the per-identifier fetch tasks of the
function-calling variants: results come back in task-submission order, and an
exception raised by any task is re-raised by the gather call. -/
def gather_loop {β : Type} (step : Int → Except String β) :
    List Int → Except String (List β)
  | [] => Except.ok []
  | pid :: rest =>
    match step pid with
    | Except.error e => Except.error e
    | Except.ok r =>
      match gather_loop step rest with
      | Except.error e => Except.error e
      | Except.ok l => Except.ok (r :: l)

end Core

section CoreChecks

example : Core.extract_name "Bag: Red Tote" = "Red Tote" := by decide
example : Core.extract_name "no colon here" = "Unknown Product" := by decide
example : Core.extract_name "Bag:" = "Unknown Product" := by decide
example : Core.extract_name "Bag:   " = "" := by decide
example : Core.extract_name "A: B\nC" = "B" := by decide
example : Core.extract_name "a:\nb: c" = "b: c" := by decide
example : Core.is_http_url "https://x/a.jpg" = true := by decide
example : Core.is_http_url "notaurl" = false := by decide
example : Core.is_http_url "http://" = false := by decide

end CoreChecks

section MoreCoreChecks

example : Core.extract_name "x: \n" = "" := by decide
example : Core.extract_name "x:\n \n" = "" := by decide
example : Core.extract_name "a::b" = ":b" := by decide
example : Core.extract_name ":y" = "y" := by decide
example : Core.extract_name ":" = "Unknown Product" := by decide
example : Core.extract_name "a: \t \n x" = "x" := by decide
example : Core.extract_name "a:\n\n" = "Unknown Product" := by decide
example : Core.extract_name "t:\x0b" = "" := by decide

end MoreCoreChecks

namespace Conv

/-!
Embedding of `src/examples/filters/conversational_assistant_pipeline.py`:
`fetch_product`, `format_products_to_markdown` and `get_product_data` of the
`Pipeline` class.  `structure_product_data` and the validation loop are the
shared `Core` definitions.
-/

/-- `fetch_product`: one HTTP GET; `raise_for_status` raises `HTTPError` for
status codes 400-599 and the handler returns `None`; a transport failure or a
JSON decoding failure falls into the generic handler, also returning `None`;
otherwise the decoded body is returned. -/
def fetch_product (http : Int → Core.HttpOutcome) (pid : Int) :
    Option Core.RawRecord :=
  match http pid with
  | Core.HttpOutcome.transport _ => none
  | Core.HttpOutcome.response s j =>
    if 400 ≤ s ∧ s < 600 then none
    else match j with
      | some d => some d
      | none => none

/-- The heading line of the conversational-assistant Markdown document. -/
def conv_header : String := "### Catalogue de Produits\n\n"

/-- One product block of `format_products_to_markdown`, with its ordinal. -/
def conv_block (idx : Nat) (p : Core.StructuredProduct) : String :=
  "**" ++ toString idx ++ ". " ++ p.name ++ "**\n" ++
  "- **Description**: " ++ p.description ++ "\n" ++
  "- **Image**:\n\n  ![Image](" ++ p.image ++ ")\n\n"

/-- The loop `for idx, product in enumerate(products, start=1)` producing the
successive blocks. -/
def conv_blocks : Nat → List Core.StructuredProduct → List String
  | _, [] => []
  | i, p :: ps => conv_block i p :: conv_blocks (i + 1) ps

/-- `format_products_to_markdown`: heading followed by the numbered blocks. -/
def format_products_to_markdown (ps : List Core.StructuredProduct) : String :=
  conv_header ++ String.join (conv_blocks 1 ps)

/-- `get_product_data`: guard on the base URL, sequential fetch loop,
validation loop, formatting; the enclosing handler converts any unexpected
exception into `None`.  The second component records which identifiers were
given to `fetch_product`. -/
def get_product_data (step : Int → Except String (Option Core.RawRecord))
    (base_api_url : String) (product_ids : Option (List Int)) :
    Option String × List Int :=
  if base_api_url.isEmpty then (none, [])
  else
    match Core.fetch_loop step (product_ids.getD [1, 2]) with
    | (Except.error _, calls) => (none, calls)
    | (Except.ok raws, calls) =>
      if raws.isEmpty then (none, calls)
      else
        let sps := Core.validate_loop raws
        if sps.isEmpty then (none, calls)
        else (some (format_products_to_markdown sps), calls)

end Conv

namespace DataPipe

/-!
Embedding of `src/examples/filters/data_pipeline.py`.  `fetch_product` and the
loops are the same as in the conversational variant; `format_products_to_markdown`
uses different surrounding text, and `get_product_data` returns fixed message
strings instead of `None` in its failure branches, with default identifier
list `[1, 2, 3]`.
-/

/-- The fixed heading text of the data-pipeline Markdown document. -/
def md_header : String := "### Assistant Vente de Produits de Luxe\n\n**Rôle**:\n\nTon rôle est d’offrir une expérience utilisateur exceptionnelle en aidant les clients à découvrir et acheter des produits de luxe provenant de différentes marques prestigieuses.\n\n"

/-- The fixed instruction/example text appended after the product blocks. -/
def md_footer : String := "**Instructions de Conversation**:\n\n- **Accueil** : Commence toujours par une salutation chaleureuse.\n- **Compréhension des Besoins** : Demande les critères de recherche de l\x27utilisateur (type de produit, marque, budget, etc.).\n- **Sélection des Produits** : Choisis les produits les plus proches des critères de l\x27utilisateur.\n- **Présentation Courte** : Fournis des informations succinctes sur les produits sélectionnés (nom, description) et affiche les **images** directement dans la conversation.\n- **Affichage de l\x27Image** :\n  - **Image principale** :\n    ![Image principale](lien_vers_l\x27image_principale_du_produit_sélectionné)\n- **Informations Supplémentaires** : Si l\x27utilisateur le demande, donne plus de détails.\n- **Confirmation d\x27Intérêt** : Demande à l\x27utilisateur s\x27il est intéressé par le(s) produit(s).\n- **Procédure de Commande** : Si l\x27utilisateur est intéressé, fournis le lien de paiement et les étapes pour commander.\n  - **Lien de paiement** : [Acheter maintenant](lien_de_paiement_du_produit_sélectionné)\n- **Clôture** : Remercie l\x27utilisateur et propose ton aide pour toute autre demande.\n\n**Exemple de Dialogue**:\n\n**Assistant**: Bonjour ! Comment puis-je vous aider aujourd\x27hui à trouver des produits de luxe ?\n\n**Utilisateur**: Je cherche un sac à main de luxe d\x27environ 1 200 €, disponible en plusieurs couleurs, de préférence de la marque ChicHandbags.\n\n**Assistant**: Parfait ! J\x27ai justement un sac à main qui correspond à vos critères.\n\n- **Nom du produit**: Collection de Sacs à Main Multicolores\n- **Description**: Luxury product N11 : Collection de Sacs à Main Multicolores\n\n**Image principale**:\n![Image principale](https://cdn.prod.website-files.com/64dbb284e8fd858cb428eb91/64dbb284e8fd858cb428f0ec_State-of-Luxury-Retail-2022.jpeg)\n\nSouhaitez-vous plus d\x27informations sur ce produit ?\n"

/-- One product block, data-pipeline layout. -/
def md_block (idx : Nat) (p : Core.StructuredProduct) : String :=
  toString idx ++ ". **" ++ p.name ++ "**:\n" ++
  "   - **Description**: " ++ p.description ++ "\n" ++
  "   - **Image principale**:\n     ![Image principale](" ++ p.image ++ ")\n\n"

/-- The `enumerate(products, start=1)` loop of the data-pipeline formatter. -/
def md_blocks : Nat → List Core.StructuredProduct → List String
  | _, [] => []
  | i, p :: ps => md_block i p :: md_blocks (i + 1) ps

/-- `format_products_to_markdown` of the data-pipeline variant. -/
def format_products_to_markdown (ps : List Core.StructuredProduct) : String :=
  md_header ++ String.join (md_blocks 1 ps) ++ md_footer

/-- `get_product_data` of the data-pipeline variant: every branch returns a
string; the URL guard, the empty-batch case, the all-invalid case and the
exception handler each return a distinct fixed message. -/
def get_product_data (step : Int → Except String (Option Core.RawRecord))
    (base_api_url : String) (product_ids : Option (List Int)) :
    Option String × List Int :=
  if base_api_url.isEmpty then (some "API URL not set, please set it up.", [])
  else
    match Core.fetch_loop step (product_ids.getD [1, 2, 3]) with
    | (Except.error e, calls) =>
      (some ("An error occurred while retrieving data: " ++ e), calls)
    | (Except.ok raws, calls) =>
      if raws.isEmpty then
        (some "No products found or all retrievals failed.", calls)
      else
        let sps := Core.validate_loop raws
        if sps.isEmpty then
          (some "No valid products found after processing.", calls)
        else (some (format_products_to_markdown sps), calls)

end DataPipe

/-- A chat message, as the dictionaries with `role` and `content` keys used by
the inlet functions. -/
structure Msg where
  role : String
  content : String
deriving DecidableEq

/-- A request body: the `messages` list plus all its other keys, which the
inlet functions never touch, abstracted as `rest`. -/
structure Body (α : Type) where
  messages : List Msg
  rest : α
deriving DecidableEq

namespace FC

/-!
Embedding of `src/examples/filters/function_calling_filter_pipeline.py`:
`Tools.get_product_data`, `Tools.fetch_product`,
`Tools.format_products_to_markdown`, `Tools.get_current_time`, and the
pipeline's `inlet`.
-/

/-- `get_current_time`, with the formatted clock reading as a parameter. -/
def get_current_time (t : String) : String := "Current Time = " ++ t

/-- `fetch_product` of the aiohttp variant: `raise_for_status` raises
`ClientResponseError` for any status of at least 400 and the handler returns
`None`; transport or JSON failures reach the generic handler, `None`;
otherwise the decoded body is returned. -/
def fetch_product (http : Int → Core.HttpOutcome) (pid : Int) :
    Option Core.RawRecord :=
  match http pid with
  | Core.HttpOutcome.transport _ => none
  | Core.HttpOutcome.response s j =>
    if 400 ≤ s then none
    else match j with
      | some d => some d
      | none => none

/-- The fixed heading text of the function-calling Markdown document. -/
def md_header : String := "### Assistant Vente de Produits de Luxe\n\n**Rôle**:\n\nTon rôle est d’offrir une expérience utilisateur exceptionnelle en aidant les clients à découvrir et acheter des produits de luxe provenant de différentes marques prestigieuses. Tu disposes d\x27une liste de 14 produits répartis sur plusieurs marques. Lorsque l\x27utilisateur te fournit des critères de recherche, tu dois :\n\n- **Analyser les critères de l\x27utilisateur**.\n- **Sélectionner les produits les plus pertinents** en fonction de ces critères.\n- **Présenter ces produits avec des informations courtes** (nom du produit, description).\n- **Affichage de l\x27Image** : Affiche l\x27image directement dans la conversation en utilisant la syntaxe Markdown pour que l\x27image apparaisse dans le chat.\n  - **Image principale** :\n    ![Image principale](https://beruehrungspunkte.de/fileadmin/_processed_/4/8/csm_Vorschaubild_63ca715dbc.jpg)\n- **Informations Supplémentaires** : Si l\x27utilisateur le demande, donne plus de détails.\n- **Confirmation d\x27Intérêt** : Demande à l\x27utilisateur s\x27il est intéressé par le(s) produit(s).\n- **Procédure de Commande** : Si l\x27utilisateur est intéressé, fournis le lien de paiement.\n- **Clôture** : Remercie l\x27utilisateur et propose ton aide pour toute autre demande.\n\n**Marques et Produits Disponibles**:\n"

/-- The fixed instruction/example text appended after the product blocks. -/
def md_footer : String := "\n**Instructions de Conversation**:\n\n- **Accueil** : Commence toujours par une salutation chaleureuse.\n- **Compréhension des Besoins** : Demande les critères de recherche de l\x27utilisateur (type de produit, marque, budget, etc.).\n- **Sélection des Produits** : Choisis les produits les plus proches des critères de l\x27utilisateur.\n- **Présentation Courte** : Fournis des informations succinctes sur les produits sélectionnés (nom, description) et affiche les **images** directement dans la conversation.\n- **Affichage de l\x27Image** :\n  - **Image principale** :\n    ![Image principale](lien_vers_l\x27image_principale_du_produit_sélectionné)\n- **Informations Supplémentaires** : Si l\x27utilisateur le demande, donne plus de détails.\n- **Confirmation d\x27Intérêt** : Demande à l\x27utilisateur s\x27il est intéressé par le(s) produit(s).\n- **Procédure de Commande** : Si l\x27utilisateur est intéressé, fournis le lien de paiement et les étapes pour commander.\n  - **Lien de paiement** : [Acheter maintenant](lien_de_paiement_du_produit_sélectionné)\n- **Clôture** : Remercie l\x27utilisateur et propose ton aide pour toute autre demande.\n\n**Exemple de Dialogue**:\n\n**Assistant**: Bonjour ! Comment puis-je vous aider aujourd\x27hui à trouver des produits de luxe ?\n\n**Utilisateur**: Je cherche un sac à main de luxe d\x27environ 1 200 €, disponible en plusieurs couleurs, de préférence de la marque ChicHandbags.\n\n**Assistant**: Parfait ! J\x27ai justement un sac à main qui correspond à vos critères.\n\n- **Nom du produit**: Collection de Sacs à Main Multicolores\n- **Description**: Luxury product N11 : Collection de Sacs à Main Multicolores\n\n**Image principale**:\n![Image principale](https://cdn.prod.website-files.com/64dbb284e8fd858cb428eb91/64dbb284e8fd858cb428f0ec_State-of-Luxury-Retail-2022.jpeg)\n\nSouhaitez-vous plus d\x27informations sur ce produit ?\n\n**Utilisateur**: Oui, pouvez-vous me donner plus de détails ?\n\n**Assistant**: Bien sûr !\n\n- **Description détaillée**: La Collection de Sacs à Main Multicolores de ChicHandbags offre une variété de styles et de couleurs pour s\x27adapter à toutes vos tenues. Chaque sac est confectionné avec des matériaux de haute qualité, garantissant durabilité et élégance.\n\nÊtes-vous intéressé par ce sac à main ?\n\n**Utilisateur**: Oui, je veux l\x27acheter. Comment faire ?\n\n**Assistant**: Je suis ravi que ce sac vous plaise ! Vous pouvez le commander en suivant ce lien sécurisé :\n\n- **Lien de paiement**: [Acheter maintenant](https://buy.stripe.com/chichandbags1)\n\nSi vous avez besoin d\x27aide supplémentaire, n\x27hésitez pas à me le faire savoir."

/-- One product block, function-calling layout. -/
def md_block (idx : Nat) (p : Core.StructuredProduct) : String :=
  "\n" ++ toString idx ++ ". **" ++ p.name ++ "**:\n\n" ++
  "   - **Description**: " ++ p.description ++ "\n" ++
  "   - **Image principale**:\n     ![Image principale](" ++ p.image ++ ")\n"

/-- The `enumerate(products, start=1)` loop of the function-calling formatter. -/
def md_blocks : Nat → List Core.StructuredProduct → List String
  | _, [] => []
  | i, p :: ps => md_block i p :: md_blocks (i + 1) ps

/-- `format_products_to_markdown` of the function-calling variant. -/
def format_products_to_markdown (ps : List Core.StructuredProduct) : String :=
  md_header ++ String.join (md_blocks 1 ps) ++ md_footer

/-- `Tools.get_product_data`: guard on the API credential before anything
else, concurrent fan-out fetch joined by `asyncio.gather`, filtering of
absent results, validation loop, formatting.  Returns the
(text, optional image) pair together with the identifiers handed to fetch
tasks; when the credential guard fires no task is ever created. -/
def get_product_data (key : String)
    (step : Int → Except String (Option Core.RawRecord))
    (product_ids : Option (List Int)) :
    (String × Option String) × List Int :=
  if key = "" then (("Product API Key not set, please set it up.", none), [])
  else
    let pids := product_ids.getD [1, 2]
    match Core.gather_loop step pids with
    | Except.error e =>
      (("An error occurred while retrieving data: " ++ e, none), pids)
    | Except.ok results =>
      let raws := results.filterMap id
      if raws.isEmpty then
        (("No products found or all retrievals failed.", none), pids)
      else
        let sps := Core.validate_loop raws
        if sps.isEmpty then
          (("No valid products found after processing.", none), pids)
        else ((format_products_to_markdown sps, none), pids)

/-- The `response_messages` list that `inlet` accumulates before extending
`body["messages"]`. -/
def response_messages (targetRoles : List String) (key : String)
    (step : Int → Except String (Option Core.RawRecord))
    (time : String) (userRole : Option String) : List Msg :=
  if targetRoles.contains (userRole.getD "unknown") then
    (if ((get_product_data key step none).1.1).isEmpty then
       [⟨"assistant", "No available products found."⟩]
     else [⟨"assistant", (get_product_data key step none).1.1⟩]) ++
    [⟨"assistant", "Current Time: " ++ get_current_time time⟩]
  else
    [⟨"assistant", "Votre rôle ne vous permet pas de récupérer les données des produits."⟩]

/-- `inlet`: build the response messages, extend the body's message list when
any were produced, and return the body. -/
def inlet {α : Type} (targetRoles : List String) (key : String)
    (step : Int → Except String (Option Core.RawRecord))
    (time : String) (body : Body α) (userRole : Option String) : Body α :=
  let rms := response_messages targetRoles key step time userRole
  if rms.isEmpty then body
  else { body with messages := body.messages ++ rms }

end FC

namespace FC2

/-!
Embedding of `src/examples/filters/function_calling_filter_pipeline_2.py`.
Its `fetch_product` validates inside the fetch (returning a `Product` or
`None`), and `get_product_data` formats the products as plain info lines.
-/

/-- `get_current_time` of the second function-calling variant. -/
def get_current_time (t : String) : String := "Current Time = " ++ t

/-- `fetch_product`: HTTP GET, `raise_for_status` for status at least 400,
then `Product(**data)` whose `ValidationError` is caught and yields `None`. -/
def fetch_product (http : Int → Core.HttpOutcome) (pid : Int) :
    Option Core.Product :=
  match http pid with
  | Core.HttpOutcome.transport _ => none
  | Core.HttpOutcome.response s j =>
    if 400 ≤ s then none
    else match j with
      | some raw => Core.validate_product raw
      | none => none

/-- The info line built for each product inside `get_product_data`. -/
def product_info (p : Core.Product) : String :=
  "Content: " ++ p.content ++ ", Description: " ++ p.description ++
  ", Image URL: " ++ p.image_url

/-- `Tools.get_product_data` of the second function-calling variant. -/
def get_product_data (key : String)
    (step : Int → Except String (Option Core.Product))
    (product_ids : Option (List Int)) :
    (String × Option String) × List Int :=
  if key = "" then (("Product API Key not set, please set it up.", none), [])
  else
    let pids := product_ids.getD [1, 2]
    match Core.gather_loop step pids with
    | Except.error e =>
      (("An error occurred while retrieving data: " ++ e, none), pids)
    | Except.ok results =>
      let products := results.filterMap id
      if products.isEmpty then
        (("No products found or all retrievals failed.", none), pids)
      else
        ((String.intercalate "\n" (products.map product_info), none), pids)

/-- The `response_messages` list accumulated by this variant's `inlet`. -/
def response_messages (targetRoles : List String) (key : String)
    (step : Int → Except String (Option Core.Product))
    (time : String) (userRole : Option String) : List Msg :=
  if targetRoles.contains (userRole.getD "unknown") then
    (if ((get_product_data key step none).1.1).isEmpty then
       [⟨"assistant", "No available products found."⟩]
     else [⟨"assistant", "Available Product Details:\n" ++ (get_product_data key step none).1.1⟩]) ++
    [⟨"assistant", "Current Time: " ++ get_current_time time⟩]
  else
    [⟨"assistant", "Your role does not permit product data retrieval."⟩]

/-- `inlet` of the second function-calling variant. -/
def inlet {α : Type} (targetRoles : List String) (key : String)
    (step : Int → Except String (Option Core.Product))
    (time : String) (body : Body α) (userRole : Option String) : Body α :=
  let rms := response_messages targetRoles key step time userRole
  if rms.isEmpty then body
  else { body with messages := body.messages ++ rms }

end FC2

namespace Space

/-!
Embedding of `src/examples/filters/retrieve_space_data.py`: only `inlet` is
needed by the claims; `retrieve_space_data` performs network traffic and is
abstracted by its resulting string `apiData`.
-/

/-- The `response_messages` list accumulated by the space-data `inlet`. -/
def response_messages (targetRoles : List String) (apiData : String)
    (userRole : Option String) : List Msg :=
  if targetRoles.contains (userRole.getD "unknown") then
    if apiData.isEmpty then
      [⟨"assistant", "No available spaces found or error occurred."⟩]
    else [⟨"assistant", "Available Space Details: " ++ apiData⟩]
  else
    [⟨"assistant", "Your role does not permit space data retrieval."⟩]

/-- `inlet` of the space-data filter. -/
def inlet {α : Type} (targetRoles : List String) (apiData : String)
    (body : Body α) (userRole : Option String) : Body α :=
  let rms := response_messages targetRoles apiData userRole
  if rms.isEmpty then body
  else { body with messages := body.messages ++ rms }

end Space

namespace Core

/-- The validation loop keeps exactly the records accepted by
`validate_product`, each transformed by `structure_product_data`, in order. -/
theorem validate_loop_eq_filterMap (raws : List RawRecord) :
    validate_loop raws =
      (raws.filterMap validate_product).map structure_product_data := by
  induction raws with
  | nil => rfl
  | cons r rest ih =>
    cases h : validate_product r with
    | none => simp [validate_loop, h, List.filterMap_cons, ih]
    | some p => simp [validate_loop, h, List.filterMap_cons, ih]

/-- The validation loop distributes over concatenation: dropping one record
never disturbs the processing of the records around it. -/
theorem validate_loop_append (a b : List RawRecord) :
    validate_loop (a ++ b) = validate_loop a ++ validate_loop b := by
  induction a with
  | nil => rfl
  | cons r rest ih =>
    cases h : validate_product r with
    | none => simp [validate_loop, h, ih]
    | some p => simp [validate_loop, h, ih]

/-- When the sequential fetch loop finishes without an exception, its batch is
exactly the successful fetches, one per identifier, in identifier order. -/
theorem fetch_loop_ok (step : Int → Except String (Option RawRecord))
    (pids : List Int) (raws : List RawRecord) (calls : List Int)
    (h : fetch_loop step pids = (Except.ok raws, calls)) :
    raws = pids.filterMap
      (fun p => match step p with | Except.ok r => r | Except.error _ => none) := by
  induction pids generalizing raws calls with
  | nil =>
    simp [fetch_loop] at h
    simp [h.1.symm]
  | cons pid rest ih =>
    cases hs : step pid with
    | error e => simp [fetch_loop, hs] at h
    | ok r =>
      cases r with
      | none =>
        simp only [fetch_loop, hs] at h
        have h1 : (fetch_loop step rest).1 = Except.ok raws := by
          have := congrArg Prod.fst h
          simpa using this
        have h2 := ih raws (fetch_loop step rest).2
          (by rw [← h1])
        simp [List.filterMap_cons, hs, h2]
      | some r0 =>
        simp only [fetch_loop, hs] at h
        cases hr : (fetch_loop step rest).1 with
        | error e => rw [hr] at h; simp at h
        | ok l =>
          rw [hr] at h
          have h1 : r0 :: l = raws := by
            have := congrArg Prod.fst h
            simpa using this
          have h2 := ih l (fetch_loop step rest).2 (by rw [← hr])
          simp [List.filterMap_cons, hs, ← h1, h2]

/-- A fetch loop that ends in `.ok` encountered no exception at any
identifier on its way. -/
theorem fetch_loop_ok_forall (step : Int → Except String (Option RawRecord))
    (pids : List Int) (raws : List RawRecord) (calls : List Int)
    (h : fetch_loop step pids = (Except.ok raws, calls)) :
    ∀ p ∈ pids, ∃ r, step p = Except.ok r := by
  induction pids generalizing raws calls with
  | nil => intro p hp; cases hp
  | cons pid rest ih =>
    intro p hp
    cases hs : step pid with
    | error e => simp [fetch_loop, hs] at h
    | ok r =>
      rcases List.mem_cons.mp hp with rfl | hmem
      · exact ⟨r, hs⟩
      · cases r with
        | none =>
          simp only [fetch_loop, hs] at h
          have h1 : (fetch_loop step rest).1 = Except.ok raws := by
            have := congrArg Prod.fst h
            simpa using this
          exact ih raws (fetch_loop step rest).2 (by rw [← h1]) p hmem
        | some r0 =>
          simp only [fetch_loop, hs] at h
          cases hr : (fetch_loop step rest).1 with
          | error e => rw [hr] at h; simp at h
          | ok l =>
            exact ih l (fetch_loop step rest).2 (by rw [← hr]) p hmem

/-- When no task raises, `asyncio.gather` returns exactly one result per
identifier, in task-submission order — independent of completion order. -/
theorem gather_loop_ok (step : Int → Except String (Option RawRecord))
    (pids : List Int)
    (h : ∀ p ∈ pids, ∃ r, step p = Except.ok r) :
    gather_loop step pids = Except.ok (pids.map
      (fun p => match step p with | Except.ok r => r | Except.error _ => none)) := by
  induction pids with
  | nil => rfl
  | cons pid rest ih =>
    obtain ⟨r, hr⟩ := h pid (List.mem_cons_self _ _)
    have hrest := ih (fun p hp => h p (List.mem_cons_of_mem _ hp))
    simp [gather_loop, hr, hrest]

/-- Dropping a whitespace run twice is the same as dropping it once. -/
theorem dropWhile_isPySpace_idem (l : List Char) :
    (l.dropWhile isPySpace).dropWhile isPySpace = l.dropWhile isPySpace := by
  induction l with
  | nil => rfl
  | cons c rest ih =>
    by_cases h : isPySpace c
    · simp [List.dropWhile_cons, h, ih]
    · simp [List.dropWhile_cons, h]

/-- Stripping is unaffected by first removing the leading whitespace run. -/
theorem pyStripL_dropWhile (l : List Char) :
    pyStripL (l.dropWhile isPySpace) = pyStripL l := by
  simp [pyStripL, dropWhile_isPySpace_idem]

end Core

namespace Core

/-- A description without any colon makes the regex search fail. -/
theorem regex_search_colon_eq_none (s : List Char)
    (h : ∀ c ∈ s, c ≠ ':') : regex_search_colon s = none := by
  induction s with
  | nil => rfl
  | cons c rest ih =>
    have hc : c ≠ ':' := h c (List.mem_cons_self _ _)
    simp [regex_search_colon, hc]
    exact ih (fun d hd => h d (List.mem_cons_of_mem _ hd))

/-- The regex search resolves at the first colon of the text whenever some
character other than a newline follows it. -/
theorem regex_search_colon_eq_some (pre t : List Char)
    (hpre : ∀ c ∈ pre, c ≠ ':')
    (ht : t.any (fun d => d ≠ '\n') = true) :
    regex_search_colon (pre ++ ':' :: t) = some (regex_group t) := by
  induction pre with
  | nil =>
    simp only [List.nil_append, regex_search_colon]
    rw [if_pos (by simpa using ht)]
  | cons c rest ih =>
    have hc : c ≠ ':' := hpre c (List.mem_cons_self _ _)
    simp only [List.cons_append, regex_search_colon]
    rw [if_neg]
    · exact ih (fun d hd => hpre d (List.mem_cons_of_mem _ hd))
    · simp [hc]

/-- In the benign case — something that is not whitespace follows the colon,
and no newline occurs after it — the captured group strips to exactly the
stripped tail after the colon. -/
theorem regex_group_strip (t : List Char)
    (h1 : ∃ c ∈ t, isPySpace c = false)
    (h2 : '\n' ∉ t) :
    pyStripL (regex_group t) = pyStripL t := by
  have hq : t.dropWhile isPySpace ≠ [] := by
    intro hnil
    obtain ⟨c, hc, hcs⟩ := h1
    have := (List.dropWhile_eq_nil_iff).mp hnil c hc
    simp [this] at hcs
  have htake : (t.dropWhile isPySpace).takeWhile (fun c => c ≠ '\n') =
      t.dropWhile isPySpace := by
    rw [List.takeWhile_eq_self_iff]
    intro c hc
    have hmem : c ∈ t := (List.dropWhile_sublist (p := isPySpace) (l := t)).mem hc
    simp only [ne_eq, decide_eq_true_eq]
    intro heq
    exact h2 (heq ▸ hmem)
  simp only [regex_group]
  rw [if_neg (by simpa [List.isEmpty_iff] using hq)]
  rw [htake, pyStripL_dropWhile]

/-- Discarding the text before the first colon. -/
theorem dropWhile_append_colon (pre t : List Char)
    (hpre : ∀ c ∈ pre, c ≠ ':') :
    (pre ++ ':' :: t).dropWhile (fun c => c ≠ ':') = ':' :: t := by
  induction pre with
  | nil => simp [List.dropWhile_cons]
  | cons c rest ih =>
    have hc : c ≠ ':' := hpre c (List.mem_cons_self _ _)
    simp only [List.cons_append, List.dropWhile_cons]
    rw [if_pos (by simp [hc])]
    exact ih (fun d hd => hpre d (List.mem_cons_of_mem _ hd))

end Core

/-- The transformation's name rule as the specification words it: the trimmed
substring after the first colon of the description, or the fixed placeholder
when the description has no colon. -/
def spec_name (s : String) : String :=
  match s.data.dropWhile (fun c => c ≠ ':') with
  | [] => "Unknown Product"
  | _ :: t => Core.pyStrip ⟨t⟩

example : spec_name "Bag: Red Tote" = "Red Tote" := by decide
example : spec_name "Bag:" = "" := by decide
example : spec_name "none" = "Unknown Product" := by decide

namespace Conv

/-- One rendered block per product. -/
theorem conv_blocks_length (i : Nat) (ps : List Core.StructuredProduct) :
    (conv_blocks i ps).length = ps.length := by
  induction ps generalizing i with
  | nil => rfl
  | cons p rest ih => simp [conv_blocks, ih]

/-- The k-th rendered block is the k-th product's block, with the ordinal
shifted by the starting index. -/
theorem conv_blocks_getElem? (ps : List Core.StructuredProduct) (i k : Nat) :
    (conv_blocks i ps)[k]? = (ps[k]?).map (fun p => conv_block (i + k) p) := by
  induction ps generalizing i k with
  | nil => simp [conv_blocks]
  | cons p rest ih =>
    cases k with
    | zero => simp [conv_blocks]
    | succ k =>
      simp only [conv_blocks, List.getElem?_cons_succ, ih]
      have : i + (k + 1) = (i + 1) + k := by omega
      rw [this]

end Conv

/-- Claim C1, counterexample.  For the validated record with description
"Bag:" the code produces the placeholder name "Unknown Product", while the
claim demands the trimmed substring after the first colon, which is the empty
string: the regex only matches when at least one character other than a
newline follows the colon. -/
theorem c1_counterexample :
    (Core.structure_product_data
      ⟨"Luxury product N1", "Bag:", "https://x/a.jpg"⟩).name = "Unknown Product"
    ∧ spec_name "Bag:" = ""
    ∧ (Core.structure_product_data
        ⟨"Luxury product N1", "Bag:", "https://x/a.jpg"⟩).name ≠ spec_name "Bag:" :=
  ⟨by decide, by decide, by decide⟩

/-- Claim C1 (amended): for every validated product record, transform
produces a DisplayProduct whose name equals the trimmed substring after the
first colon in the description provided the text after that colon contains a
character that is not whitespace and contains no newline; the name is the
fixed placeholder "Unknown Product" when no colon is present; the description
equals content concatenated with the original description separated by
" - ", and the image is a copy of image_url. -/
theorem c1_claim (p : Core.Product) :
    ((∀ c ∈ p.description.data, c ≠ ':') →
        (Core.structure_product_data p).name = "Unknown Product")
    ∧ (∀ pre t, p.description.data = pre ++ ':' :: t →
        (∀ c ∈ pre, c ≠ ':') →
        (∃ c ∈ t, Core.isPySpace c = false) →
        '\n' ∉ t →
        (Core.structure_product_data p).name = Core.pyStrip ⟨t⟩ ∧
          Core.pyStrip ⟨t⟩ = spec_name p.description)
    ∧ (Core.structure_product_data p).description =
        p.content ++ " - " ++ p.description
    ∧ (Core.structure_product_data p).image = p.image_url := by
  refine ⟨?_, ?_, rfl, rfl⟩
  · intro h
    simp [Core.structure_product_data, Core.extract_name,
      Core.regex_search_colon_eq_none _ h]
  · intro pre t hdec hpre hex hnl
    have hany : (t.any fun d => d ≠ '\n') = true := by
      obtain ⟨c, hc, hcs⟩ := hex
      have hcn : c ≠ '\n' := by
        intro hceq
        rw [hceq] at hcs
        simp [Core.isPySpace] at hcs
      exact List.any_eq_true.mpr ⟨c, hc, by simpa using hcn⟩
    have hsearch : Core.regex_search_colon p.description.data =
        some (Core.regex_group t) := by
      rw [hdec]
      exact Core.regex_search_colon_eq_some pre t hpre hany
    constructor
    · show Core.extract_name p.description = Core.pyStrip ⟨t⟩
      rw [Core.extract_name, hsearch]
      show Core.pyStrip ⟨Core.regex_group t⟩ = Core.pyStrip ⟨t⟩
      simp only [Core.pyStrip]
      exact congrArg String.mk (Core.regex_group_strip t hex hnl)
    · rw [spec_name, hdec, Core.dropWhile_append_colon pre t hpre]

/-- Claim C1, witness: a benign description where the amended rule applies. -/
theorem c1_witness :
    (Core.structure_product_data
      ⟨"Luxury product N1", "Bag: Red Tote", "https://x/a.jpg"⟩).name =
        Core.pyStrip ⟨" Red Tote".data⟩
    ∧ Core.pyStrip ⟨" Red Tote".data⟩ = spec_name "Bag: Red Tote" :=
  (c1_claim ⟨"Luxury product N1", "Bag: Red Tote", "https://x/a.jpg"⟩).2.1
    "Bag".data " Red Tote".data (by decide) (by decide)
    (by decide) (by decide)

/-- Claim C2: for every list of n successfully validated products, rendering
yields a Markdown document with exactly n ordinal blocks numbered 1..n, one
per validated product, in the order of the input identifier list.  The
sequential loop keeps identifier order by construction and the concurrent
gather returns its results in task-submission order, so completion order is
immaterial; the document is the heading followed by exactly the numbered
blocks, where block k carries ordinal k+1 and the k-th surviving product. -/
theorem c2_claim (step : Int → Except String (Option Core.RawRecord))
    (pids : List Int) (raws : List Core.RawRecord) (calls : List Int)
    (h : Core.fetch_loop step pids = (Except.ok raws, calls)) :
    (Conv.conv_blocks 1 (Core.validate_loop raws)).length =
        (Core.validate_loop raws).length
    ∧ (∀ k, (Conv.conv_blocks 1 (Core.validate_loop raws))[k]? =
        ((Core.validate_loop raws)[k]?).map (fun p => Conv.conv_block (1 + k) p))
    ∧ Conv.format_products_to_markdown (Core.validate_loop raws) =
        Conv.conv_header ++ String.join (Conv.conv_blocks 1 (Core.validate_loop raws))
    ∧ Core.validate_loop raws =
        (raws.filterMap Core.validate_product).map Core.structure_product_data
    ∧ raws = pids.filterMap
        (fun p => match step p with | Except.ok r => r | Except.error _ => none)
    ∧ Core.gather_loop step pids = Except.ok (pids.map
        (fun p => match step p with | Except.ok r => r | Except.error _ => none))
    ∧ (∀ url : String, url.isEmpty = false → raws.isEmpty = false →
        (Core.validate_loop raws).isEmpty = false →
        (Conv.get_product_data step url (some pids)).1 =
          some (Conv.format_products_to_markdown (Core.validate_loop raws))) := by
  refine ⟨Conv.conv_blocks_length 1 _,
    fun k => Conv.conv_blocks_getElem? _ 1 k,
    rfl,
    Core.validate_loop_eq_filterMap raws,
    Core.fetch_loop_ok step pids raws calls h,
    Core.gather_loop_ok step pids (Core.fetch_loop_ok_forall step pids raws calls h),
    ?_⟩
  intro url hu hr hv
  simp [Conv.get_product_data, hu, h, hr, hv]

/-- Claim C2, witness: two identifiers that both yield the same valid record
give a two-block document. -/
theorem c2_witness :
    (Conv.conv_blocks 1 (Core.validate_loop
      [⟨some "Luxury", some "Bag: Tote", some "https://x/a.jpg"⟩,
       ⟨some "Luxury", some "Bag: Tote", some "https://x/a.jpg"⟩])).length =
    (Core.validate_loop
      [⟨some "Luxury", some "Bag: Tote", some "https://x/a.jpg"⟩,
       ⟨some "Luxury", some "Bag: Tote", some "https://x/a.jpg"⟩]).length :=
  (c2_claim
    (fun _ => Except.ok (some ⟨some "Luxury", some "Bag: Tote", some "https://x/a.jpg"⟩))
    [1, 2]
    [⟨some "Luxury", some "Bag: Tote", some "https://x/a.jpg"⟩,
     ⟨some "Luxury", some "Bag: Tote", some "https://x/a.jpg"⟩]
    [1, 2] rfl).1

/-- Claim C3, counterexample.  When the fetch step raises an unexpected
exception, the data-pipeline variant of `get_product_data` does not return
the absence value: it catches the exception but returns an error-message
string, which its caller then treats as ordinary data. -/
theorem c3_counterexample :
    (DataPipe.get_product_data (fun _ => Except.error "boom")
      "https://api.example/data/" (some [1])).1 =
      some "An error occurred while retrieving data: boom"
    ∧ (DataPipe.get_product_data (fun _ => Except.error "boom")
        "https://api.example/data/" (some [1])).1 ≠ none :=
  ⟨rfl, by decide⟩

/-- Claim C3 (amended): an unexpected exception raised inside the retrieval
operation is caught at the top-level boundary in both variants and never
propagates; the conversational-assistant variant converts it to the absence
value `none`, while the data-pipeline variant converts it to the string
"An error occurred while retrieving data: " followed by the message. -/
theorem c3_claim (step : Int → Except String (Option Core.RawRecord))
    (url : String) (pids : List Int) (e : String) (calls : List Int)
    (hu : url.isEmpty = false)
    (h : Core.fetch_loop step pids = (Except.error e, calls)) :
    (Conv.get_product_data step url (some pids)).1 = none
    ∧ (DataPipe.get_product_data step url (some pids)).1 =
        some ("An error occurred while retrieving data: " ++ e) := by
  constructor
  · simp [Conv.get_product_data, hu, h]
  · simp [DataPipe.get_product_data, hu, h]

/-- Claim C3, witness: a concrete raising step. -/
theorem c3_witness :
    (Conv.get_product_data (fun _ => Except.error "boom")
      "https://api.example/data/" (some [1])).1 = none :=
  (c3_claim (fun _ => Except.error "boom") "https://api.example/data/"
    [1] "boom" [1] (by decide) rfl).1

/-- Claim C4, counterexample.  With the base URL unset the data-pipeline
variant returns a fixed notice string, not the absence value. -/
theorem c4_counterexample :
    (DataPipe.get_product_data (fun _ => Except.error "network used") ""
      (some [1])).1 = some "API URL not set, please set it up."
    ∧ (DataPipe.get_product_data (fun _ => Except.error "network used") ""
        (some [1])).1 ≠ none :=
  ⟨rfl, by decide⟩

/-- Claim C4 (amended): when the base URL is unset, the
conversational-assistant variant returns the absence value `none` and the
data-pipeline variant returns the fixed string
"API URL not set, please set it up."; neither attempts any fetch (the list
of attempted identifiers is empty), whatever the fetch behaviour and the
identifier list. -/
theorem c4_claim (step : Int → Except String (Option Core.RawRecord))
    (pids : Option (List Int)) :
    (Conv.get_product_data step "" pids).1 = none
    ∧ (Conv.get_product_data step "" pids).2 = []
    ∧ (DataPipe.get_product_data step "" pids).1 =
        some "API URL not set, please set it up."
    ∧ (DataPipe.get_product_data step "" pids).2 = [] :=
  ⟨rfl, rfl, rfl, rfl⟩

/-- Claim C5, counterexample.  In the data-pipeline variant, a non-empty
identifier list whose only fetched record fails validation yields a message
different from the one an empty identifier list yields. -/
theorem c5_counterexample :
    (DataPipe.get_product_data
      (fun _ => Except.ok (some ⟨none, some "Bag: X", some "https://x/a.jpg"⟩))
      "https://api.example/data/" (some [1])).1 =
      some "No valid products found after processing."
    ∧ (DataPipe.get_product_data
        (fun _ => Except.ok (some ⟨none, some "Bag: X", some "https://x/a.jpg"⟩))
        "https://api.example/data/" (some ([] : List Int))).1 =
      some "No products found or all retrievals failed."
    ∧ ("No valid products found after processing." : String) ≠
        "No products found or all retrievals failed." :=
  ⟨rfl, rfl, by decide⟩

/-- Claim C5 (amended): in the conversational-assistant variant a non-empty
identifier list in which zero products survive fetching and validation
returns the same absence value `none` as an empty identifier list.  In the
data-pipeline variant, the empty list and the case where every fetch failed
return the same fixed string, but a batch whose fetched records all fail
validation returns a different fixed string. -/
theorem c5_claim (step : Int → Except String (Option Core.RawRecord))
    (url : String) (pids : List Int) (raws : List Core.RawRecord)
    (calls : List Int)
    (hu : url.isEmpty = false)
    (h : Core.fetch_loop step pids = (Except.ok raws, calls))
    (hv : Core.validate_loop raws = []) :
    (Conv.get_product_data step url (some pids)).1 = none
    ∧ (Conv.get_product_data step url (some [])).1 = none
    ∧ (raws = [] →
        (DataPipe.get_product_data step url (some pids)).1 =
          some "No products found or all retrievals failed."
        ∧ (DataPipe.get_product_data step url (some [])).1 =
          some "No products found or all retrievals failed.")
    ∧ (raws ≠ [] →
        (DataPipe.get_product_data step url (some pids)).1 =
          some "No valid products found after processing.") := by
  refine ⟨?_, ?_, ?_, ?_⟩
  · by_cases hre : raws.isEmpty
    · simp [Conv.get_product_data, hu, h, hre]
    · simp [Conv.get_product_data, hu, h, hre, hv]
  · simp [Conv.get_product_data, hu, Core.fetch_loop]
  · intro hre
    subst hre
    constructor
    · simp [DataPipe.get_product_data, hu, h]
    · simp [DataPipe.get_product_data, hu, Core.fetch_loop]
  · intro hne
    have hre : raws.isEmpty = false := by
      cases raws with
      | nil => exact absurd rfl hne
      | cons a l => rfl
    simp [DataPipe.get_product_data, hu, h, hre, hv]

/-- Claim C5, witness: one identifier whose fetch fails. -/
theorem c5_witness :
    (Conv.get_product_data (fun _ => Except.ok none)
      "https://api.example/data/" (some [1])).1 = none :=
  (c5_claim (fun _ => Except.ok none) "https://api.example/data/"
    [1] [] [1] (by decide) rfl rfl).1

/-- Claim C6: a fetched record missing `content` or `description`, or bearing
a syntactically invalid `image_url`, is rejected by validation; dropping it
leaves the processing of the surrounding records untouched, and the rendered
document is built from exactly the surviving records. -/
theorem c6_claim (pre post : List Core.RawRecord) (bad : Core.RawRecord)
    (hbad : bad.content = none ∨ bad.description = none ∨
      (∃ u, bad.image_url = some u ∧ Core.is_http_url u = false)) :
    Core.validate_product bad = none
    ∧ Core.validate_loop (pre ++ bad :: post) =
        Core.validate_loop pre ++ Core.validate_loop post
    ∧ (∀ (step : Int → Except String (Option Core.RawRecord)) (url : String)
        (pids calls : List Int),
        Core.fetch_loop step pids = (Except.ok (pre ++ bad :: post), calls) →
        url.isEmpty = false →
        (Core.validate_loop pre ++ Core.validate_loop post).isEmpty = false →
        (Conv.get_product_data step url (some pids)).1 =
          some (Conv.format_products_to_markdown
            (Core.validate_loop pre ++ Core.validate_loop post))) := by
  have hvb : Core.validate_product bad = none := by
    rcases hbad with hh | hh | ⟨u, hu, hvu⟩
    · cases hy : bad.description <;> cases hz : bad.image_url <;>
        simp [Core.validate_product, hh, hy, hz]
    · cases hx : bad.content <;> cases hz : bad.image_url <;>
        simp [Core.validate_product, hx, hh, hz]
    · cases hx : bad.content <;> cases hy : bad.description <;>
        simp [Core.validate_product, hx, hy, hu, hvu]
  have hsplit : Core.validate_loop (pre ++ bad :: post) =
      Core.validate_loop pre ++ Core.validate_loop post := by
    rw [Core.validate_loop_append]
    simp [Core.validate_loop, hvb]
  refine ⟨hvb, hsplit, ?_⟩
  intro step url pids calls h hu hne
  have hraw : (pre ++ bad :: post).isEmpty = false := by
    cases pre <;> rfl
  simp [Conv.get_product_data, hu, h, hraw, hsplit, hne]

/-- Claim C6, witness: a record with a missing `content` field sandwiched
between two valid records is dropped while both neighbours survive. -/
theorem c6_witness :
    Core.validate_loop
      ([⟨some "Luxury", some "Bag: Tote", some "https://x/a.jpg"⟩] ++
        ⟨none, some "Bag: X", some "https://x/b.jpg"⟩ ::
        [⟨some "Luxury", some "Hat: Cap", some "https://x/c.jpg"⟩]) =
      Core.validate_loop [⟨some "Luxury", some "Bag: Tote", some "https://x/a.jpg"⟩] ++
      Core.validate_loop [⟨some "Luxury", some "Hat: Cap", some "https://x/c.jpg"⟩] :=
  (c6_claim
    [⟨some "Luxury", some "Bag: Tote", some "https://x/a.jpg"⟩]
    [⟨some "Luxury", some "Hat: Cap", some "https://x/c.jpg"⟩]
    ⟨none, some "Bag: X", some "https://x/b.jpg"⟩
    (Or.inl rfl)).2.1

/-- Claim C7: when zero display products survive, the retrieval operation
yields the absence value and in particular never the heading-only document
that the formatter itself would produce on an empty product list. -/
theorem c7_claim (step : Int → Except String (Option Core.RawRecord))
    (url : String) (pids : List Int) (raws : List Core.RawRecord)
    (calls : List Int)
    (h : Core.fetch_loop step pids = (Except.ok raws, calls))
    (hv : Core.validate_loop raws = []) :
    (Conv.get_product_data step url (some pids)).1 = none
    ∧ (Conv.get_product_data step url (some pids)).1 ≠
        some (Conv.format_products_to_markdown [])
    ∧ Conv.format_products_to_markdown [] = Conv.conv_header := by
  have h1 : (Conv.get_product_data step url (some pids)).1 = none := by
    by_cases hu : url.isEmpty
    · simp [Conv.get_product_data, hu]
    · by_cases hre : raws.isEmpty
      · simp [Conv.get_product_data, hu, h, hre]
      · simp [Conv.get_product_data, hu, h, hre, hv]
  exact ⟨h1, by simp [h1], by decide⟩

/-- Claim C7, witness: every fetch absorbed a failure. -/
theorem c7_witness :
    (Conv.get_product_data (fun _ => Except.ok none)
      "https://api.example/data/" (some [1, 2])).1 = none :=
  (c7_claim (fun _ => Except.ok none) "https://api.example/data/"
    [1, 2] [] [1, 2] rfl rfl).1

/-- Claim C8: the single-product fetch returns the parsed JSON body on a 2xx
status, the absence value on an HTTP error status or a transport failure, in
both the requests-based and the aiohttp-based variants; and a failed fetch is
non-fatal — the sequential loop still collects exactly the successful
fetches of the remaining identifiers. -/
theorem c8_claim (http : Int → Core.HttpOutcome) (pid : Int) :
    (∀ s d raw, http pid = Core.HttpOutcome.response s d → 200 ≤ s → s < 300 →
        d = some raw →
        Conv.fetch_product http pid = some raw ∧
          FC.fetch_product http pid = some raw)
    ∧ (∀ s d, http pid = Core.HttpOutcome.response s d → 400 ≤ s → s < 600 →
        Conv.fetch_product http pid = none ∧ FC.fetch_product http pid = none)
    ∧ (∀ m, http pid = Core.HttpOutcome.transport m →
        Conv.fetch_product http pid = none ∧ FC.fetch_product http pid = none)
    ∧ (∀ pids : List Int,
        (Core.fetch_loop (fun p => Except.ok (Conv.fetch_product http p)) pids).1 =
          Except.ok (pids.filterMap (fun p => Conv.fetch_product http p))) := by
  refine ⟨?_, ?_, ?_, ?_⟩
  · intro s d raw hresp h200 h300 hd
    constructor
    · simp only [Conv.fetch_product, hresp]
      rw [if_neg (by omega), hd]
    · simp only [FC.fetch_product, hresp]
      rw [if_neg (by omega), hd]
  · intro s d hresp h400 h600
    constructor
    · simp only [Conv.fetch_product, hresp]
      rw [if_pos (by omega)]
    · simp only [FC.fetch_product, hresp]
      rw [if_pos (by omega)]
  · intro m htr
    constructor
    · simp only [Conv.fetch_product, htr]
    · simp only [FC.fetch_product, htr]
  · intro pids
    induction pids with
    | nil => rfl
    | cons p rest ih =>
      cases hf : Conv.fetch_product http p with
      | none => simp [Core.fetch_loop, hf, ih, List.filterMap_cons]
      | some r => simp [Core.fetch_loop, hf, ih, List.filterMap_cons]

/-- Claim C8, witness: identifier 1 answers 200 with a body, identifier 2
answers 404; the loop keeps exactly the record of identifier 1. -/
theorem c8_witness :
    Conv.fetch_product
      (fun p => if p = 1 then
          Core.HttpOutcome.response 200
            (some ⟨some "Luxury", some "Bag: Tote", some "https://x/a.jpg"⟩)
        else Core.HttpOutcome.response 404 none) 1 =
      some ⟨some "Luxury", some "Bag: Tote", some "https://x/a.jpg"⟩
    ∧ FC.fetch_product
      (fun p => if p = 1 then
          Core.HttpOutcome.response 200
            (some ⟨some "Luxury", some "Bag: Tote", some "https://x/a.jpg"⟩)
        else Core.HttpOutcome.response 404 none) 1 =
      some ⟨some "Luxury", some "Bag: Tote", some "https://x/a.jpg"⟩ :=
  (c8_claim
    (fun p => if p = 1 then
        Core.HttpOutcome.response 200
          (some ⟨some "Luxury", some "Bag: Tote", some "https://x/a.jpg"⟩)
      else Core.HttpOutcome.response 404 none) 1).1
    200 (some ⟨some "Luxury", some "Bag: Tote", some "https://x/a.jpg"⟩)
    ⟨some "Luxury", some "Bag: Tote", some "https://x/a.jpg"⟩
    rfl (by decide) (by decide) rfl

namespace FC

/-- The response list of the function-calling inlet is never empty and
consists of assistant-role messages only. -/
theorem fc_response_messages_spec (targetRoles : List String) (key : String)
    (step : Int → Except String (Option Core.RawRecord))
    (time : String) (userRole : Option String) :
    response_messages targetRoles key step time userRole ≠ []
    ∧ ∀ m ∈ response_messages targetRoles key step time userRole,
        m.role = "assistant" := by
  constructor
  · unfold response_messages
    split
    · split <;> simp
    · simp
  · intro m hm
    unfold response_messages at hm
    split at hm
    · rcases List.mem_append.mp hm with h1 | h1
      · split at h1 <;> simp at h1 <;> simp [h1]
      · simp at h1
        simp [h1]
    · simp at hm
      simp [hm]

end FC

namespace FC2

/-- The response list of the second function-calling inlet is never empty
and consists of assistant-role messages only. -/
theorem fc2_response_messages_spec (targetRoles : List String) (key : String)
    (step : Int → Except String (Option Core.Product))
    (time : String) (userRole : Option String) :
    response_messages targetRoles key step time userRole ≠ []
    ∧ ∀ m ∈ response_messages targetRoles key step time userRole,
        m.role = "assistant" := by
  constructor
  · unfold response_messages
    split
    · split <;> simp
    · simp
  · intro m hm
    unfold response_messages at hm
    split at hm
    · rcases List.mem_append.mp hm with h1 | h1
      · split at h1 <;> simp at h1 <;> simp [h1]
      · simp at h1
        simp [h1]
    · simp at hm
      simp [hm]

end FC2

namespace Space

/-- The response list of the space-data inlet is never empty and consists of
assistant-role messages only. -/
theorem space_response_messages_spec (targetRoles : List String) (apiData : String)
    (userRole : Option String) :
    response_messages targetRoles apiData userRole ≠ []
    ∧ ∀ m ∈ response_messages targetRoles apiData userRole,
        m.role = "assistant" := by
  constructor
  · unfold response_messages
    split
    · split <;> simp
    · simp
  · intro m hm
    unfold response_messages at hm
    split at hm
    · split at hm <;> simp at hm <;> simp [hm]
    · simp at hm
      simp [hm]

end Space

/-- Claim C9: every inlet returns the same record with only its messages
list changed, and changed only by appending at least one assistant-role
message at the end; the other keys of the body (abstracted by `rest`) keep
their values and the pre-existing messages remain an unchanged initial
segment — in all three filter variants. -/
theorem c9_claim {α : Type} (body : Body α) (targetRoles : List String)
    (key time apiData : String)
    (step : Int → Except String (Option Core.RawRecord))
    (step2 : Int → Except String (Option Core.Product))
    (userRole : Option String) :
    (∃ ms, ms ≠ [] ∧ (∀ m ∈ ms, Msg.role m = "assistant") ∧
      FC.inlet targetRoles key step time body userRole =
        ⟨body.messages ++ ms, body.rest⟩)
    ∧ (∃ ms, ms ≠ [] ∧ (∀ m ∈ ms, Msg.role m = "assistant") ∧
      FC2.inlet targetRoles key step2 time body userRole =
        ⟨body.messages ++ ms, body.rest⟩)
    ∧ (∃ ms, ms ≠ [] ∧ (∀ m ∈ ms, Msg.role m = "assistant") ∧
      Space.inlet targetRoles apiData body userRole =
        ⟨body.messages ++ ms, body.rest⟩) := by
  refine ⟨⟨FC.response_messages targetRoles key step time userRole,
      (FC.fc_response_messages_spec targetRoles key step time userRole).1,
      (FC.fc_response_messages_spec targetRoles key step time userRole).2, ?_⟩,
    ⟨FC2.response_messages targetRoles key step2 time userRole,
      (FC2.fc2_response_messages_spec targetRoles key step2 time userRole).1,
      (FC2.fc2_response_messages_spec targetRoles key step2 time userRole).2, ?_⟩,
    ⟨Space.response_messages targetRoles apiData userRole,
      (Space.space_response_messages_spec targetRoles apiData userRole).1,
      (Space.space_response_messages_spec targetRoles apiData userRole).2, ?_⟩⟩
  · have hne := (FC.fc_response_messages_spec targetRoles key step time userRole).1
    simp only [FC.inlet]
    rw [if_neg (by simpa using hne)]
  · have hne := (FC2.fc2_response_messages_spec targetRoles key step2 time userRole).1
    simp only [FC2.inlet]
    rw [if_neg (by simpa using hne)]
  · have hne := (Space.space_response_messages_spec targetRoles apiData userRole).1
    simp only [Space.inlet]
    rw [if_neg (by simpa using hne)]

/-- Claim C10: in both function-calling variants, an empty product API
credential makes `get_product_data` return the fixed notice string paired
with an absent image, with no fetch attempted, whatever the identifier
list. -/
theorem c10_claim (step : Int → Except String (Option Core.RawRecord))
    (step2 : Int → Except String (Option Core.Product))
    (pids : Option (List Int)) :
    FC.get_product_data "" step pids =
      (("Product API Key not set, please set it up.", none), [])
    ∧ FC2.get_product_data "" step2 pids =
      (("Product API Key not set, please set it up.", none), []) :=
  ⟨rfl, rfl⟩
